import Mathlib

/-!
Verification of the context-partitioned recommender model manager
(Recadon-style extension living in `src/PostgreSQL/src/backend/tcop/utility.c`).

The shallow embedding below translates the recommender-specific pieces of that
file into Lean:

* `itemSimilarity`, `userSimilarity`, `SVDSimilarity` — the three builder
  bodies (source lines 113-337, 342-569, 574-792), modelled as pure functions
  producing the sequence of engine/backend calls (`Event`) plus the inserted
  index rows (`IndexRow`).
* `createRInfra` — the infrastructure part of the `T_CreateRStmt` handler
  (source lines 1337-1391): catalogue table, catalogue row, properties row,
  index table.
* `destroyRec` — the `T_DropRecStmt` handler (source lines 1426-1561).

External functions from `utils/recathon.c` (not present under `src/`) are
parameters of the model: the modeling backend (`Backend`) and the relational
engine effects.  Where their behaviour decides a claim they are modelled from
the specification (see the doc comments marked `Modelled from the spec:`).
-/

namespace Recathon

/-- Per-character ASCII lower-casing, as the destroy path's
`for (i...) recname[i] = tolower(recname[i]);` loop (lines 1442-1443) and the
engine's folding of unquoted SQL identifiers. -/
def strLower (s : String) : String :=
  String.mk (s.data.map Char.toLower)

/-- The `recMethod` enum of the source (selected by `validateCreateRStmt`). -/
inductive RecMethod where
  | itemCosCF
  | itemPearCF
  | userCosCF
  | userPearCF
  | SVD
deriving DecidableEq

/-- `struct timeval` as filled in by `gettimeofday` (one read per cell). -/
structure Timeval where
  tv_sec : Nat
  tv_usec : Nat
deriving DecidableEq

/-- The `%ld%ld` suffix printed after each generated name:
`sprintf(...,"...%ld%ld",timestamp.tv_sec,timestamp.tv_usec)`. -/
def tsSuffix (t : Timeval) : String :=
  toString t.tv_sec ++ toString t.tv_usec

/-- `sprintf(recmodelname,"%sModel%ld%ld",relname,tv_sec,tv_usec)` (lines 211, 441). -/
def recModelName (base : String) (t : Timeval) : String :=
  base ++ "Model" ++ tsSuffix t

/-- `"%sView%ld%ld"` as used for the RecView table (lines 222, 453, 680). -/
def recViewName (base : String) (t : Timeval) : String :=
  base ++ "View" ++ tsSuffix t

/-- `sprintf(recusermodelname,"%sUserModel%ld%ld",...)` (line 658). -/
def recUserModelName (base : String) (t : Timeval) : String :=
  base ++ "UserModel" ++ tsSuffix t

/-- `sprintf(recitemmodelname,"%sItemModel%ld%ld",...)` (line 663). -/
def recItemModelName (base : String) (t : Timeval) : String :=
  base ++ "ItemModel" ++ tsSuffix t

/-- `sprintf(recindexname,"%sIndex",relname)` (lines 194, 283, 423, ...). -/
def recIndexName (base : String) : String :=
  base ++ "Index"

/-- The validated `CreateRStmt` request: source tables, key columns and the
algorithm.  `methodname` is the raw `recStmt->method` string stored into the
catalogue; `method` is the `recMethod` value computed by `validateCreateRStmt`. -/
structure CreateRStmt where
  relname : String
  usertable : String
  itemtable : String
  ratingtable : String
  userkey : String
  itemkey : String
  ratingval : String
  methodname : String
  method : RecMethod

/-- A tuple of the source data, read by attribute name (`getTupleString`). -/
abbrev Row := String → String

/-- The partition enumeration of one build.  With context attributes present it
is the `SELECT DISTINCT a1, ..., an FROM usertable` loop (lines 146-197 etc.);
with none, the context-free branch builds exactly one cell with no attribute
values (lines 275-336 etc.). -/
def partitionCells (attList : List String) (userRows : List Row) : List (List String) :=
  if 0 < attList.length then
    (userRows.map (fun row => attList.map (fun a => row a))).dedup
  else
    [[]]

/-- The cells a build enumerates: the partition enumeration runs against the
request's *user* table (`FROM recStmt->usertable->relname`). -/
def enumeratedCells (r : CreateRStmt) (attList : List String) (db : String → List Row) :
    List (List String) :=
  partitionCells attList (db r.usertable)

/-- One row of a recommender's index table, as written by the
`INSERT INTO %sIndex VALUES (default, ..., localtimestamp, ...)` statements.
For non-SVD methods `modelname2 = none`; for SVD, `modelname1` is the user
model and `modelname2` the item model. -/
structure IndexRow where
  modelname1 : String
  modelname2 : Option String
  viewname : String
  updateCounter : Nat
  ratingTotal : Int
  queryCounter : Nat
  updateRate : Rat
  queryRate : Rat
  levelone_timestamp : Nat
  attvalues : List String
deriving DecidableEq

/-- A default row used only as the `List.getD` fallback. -/
def emptyIndexRow : IndexRow :=
  ⟨"", none, "", 0, 0, 0, 0, 0, 0, []⟩

/-- Which per-entity statistics precomputation ran (`vector_lengths` for
cosine, `pearson_info` for Pearson). -/
inductive PrecompKind where
  | vectorLengths
  | pearsonInfo
deriving DecidableEq

/-- Observable calls a build makes into the engine and the modeling backend,
in program order.  `S` is the (opaque) type of the precomputed statistics
arrays. -/
inductive Event (S : Type) where
  | precompute (kind : PrecompKind) (entityTable entityKey ratingTable ratingVal : String)
  | createTable (name : String)
  | insertView (viewname : String)
  | populate (modelnames : List String) (attnames attvalues : List String)
      (stats : Option S) (numRatings : Int)
  | insertIndex (indexname : String) (row : IndexRow)

/-- The modeling backend of `utils/recathon.c`, treated as a black box:
`vector_lengths`, `pearson_info`, the four `update*Model` populate functions
and `SVDsimilarity`.  Each populate returns the count of ratings consumed. -/
structure Backend (S : Type) where
  vector_lengths : String → String → String → String → S
  pearson_info : String → String → String → String → S
  updateItemCosModel : String → String → String → String → String → String → String →
    List String → List String → S → Int
  updateItemPearModel : String → String → String → String → String → String → String →
    List String → List String → S → Int
  updateUserCosModel : String → String → String → String → String → String → String →
    List String → List String → S → Int
  updateUserPearModel : String → String → String → String → String → String → String →
    List String → List String → S → Int
  SVDsimilarity : String → String → String → String → String → String → String → String →
    List String → List String → Int

/-- The statistics precomputation at the top of `itemSimilarity`
(lines 131-139): `vector_lengths` over the *item* table for cosine,
`pearson_info` for Pearson, nothing otherwise. -/
def itemStats {S : Type} (B : Backend S) (r : CreateRStmt) (method : RecMethod) :
    Option (PrecompKind × S) :=
  if method = RecMethod.itemCosCF then
    some (PrecompKind.vectorLengths,
      B.vector_lengths r.itemtable r.itemkey r.ratingtable r.ratingval)
  else if method = RecMethod.itemPearCF then
    some (PrecompKind.pearsonInfo,
      B.pearson_info r.itemtable r.itemkey r.ratingtable r.ratingval)
  else none

/-- The per-cell populate dispatch of `itemSimilarity` (lines 237-246):
`updateItemCosModel` or `updateItemPearModel`, passing the precomputed arrays. -/
def itemPopulate {S : Type} (B : Backend S) (r : CreateRStmt) (method : RecMethod)
    (modelname : String) (attnames attvalues : List String) (stats : S) : Int :=
  if method = RecMethod.itemCosCF then
    B.updateItemCosModel r.usertable r.itemtable r.ratingtable r.userkey r.itemkey
      r.ratingval modelname attnames attvalues stats
  else if method = RecMethod.itemPearCF then
    B.updateItemPearModel r.usertable r.itemtable r.ratingtable r.userkey r.itemkey
      r.ratingval modelname attnames attvalues stats
  else 0

/-- The body of one iteration of the `itemSimilarity` cell loop
(lines 185-263, and the context-free copy 275-336): one `gettimeofday` read
`t` names both the model and the view, the model and view tables are created,
the dummy view tuple inserted, the populate call made, and one index row
inserted. -/
def itemCell {S : Type} (B : Backend S) (r : CreateRStmt) (method : RecMethod)
    (pre : Option (PrecompKind × S)) (attnames : List String) (t : Timeval)
    (ltime : Nat) (cell : List String) : List (Event S) × IndexRow :=
  let modelname := recModelName r.relname t
  let viewname := recViewName r.relname t
  let numRatings : Int :=
    match pre with
    | some (_, st) => itemPopulate B r method modelname attnames cell st
    | none => 0
  let popEvents : List (Event S) :=
    match pre with
    | some (_, st) => [Event.populate [modelname] attnames cell (some st) numRatings]
    | none => []
  let row : IndexRow := ⟨modelname, none, viewname, 0, numRatings, 0, 0, 0, ltime, cell⟩
  ([Event.createTable modelname, Event.createTable viewname, Event.insertView viewname]
    ++ popEvents ++ [Event.insertIndex (recIndexName r.relname) row], row)

/-- `itemSimilarity` (source lines 113-337): precompute once, enumerate cells
from the user table, then build each cell in order.  `ts i` is the result of
the `gettimeofday` call of cell `i`, `lt i` the `localtimestamp` recorded in
its index row. -/
def itemSimilarity {S : Type} (B : Backend S) (r : CreateRStmt) (attList : List String)
    (db : String → List Row) (ts : Nat → Timeval) (lt : Nat → Nat) (method : RecMethod) :
    List (Event S) × List IndexRow :=
  let pre := itemStats B r method
  let preEvents : List (Event S) :=
    match pre with
    | some (k, _) => [Event.precompute k r.itemtable r.itemkey r.ratingtable r.ratingval]
    | none => []
  let cells := enumeratedCells r attList db
  let results := (List.range cells.length).map
    (fun i => itemCell B r method pre attList (ts i) (lt i) (cells.getD i []))
  (preEvents ++ (results.map Prod.fst).flatten, results.map Prod.snd)

/-- The statistics precomputation at the top of `userSimilarity`
(lines 360-368): over the *user* table. -/
def userStats {S : Type} (B : Backend S) (r : CreateRStmt) (method : RecMethod) :
    Option (PrecompKind × S) :=
  if method = RecMethod.userCosCF then
    some (PrecompKind.vectorLengths,
      B.vector_lengths r.usertable r.userkey r.ratingtable r.ratingval)
  else if method = RecMethod.userPearCF then
    some (PrecompKind.pearsonInfo,
      B.pearson_info r.usertable r.userkey r.ratingtable r.ratingval)
  else none

/-- The per-cell populate dispatch of `userSimilarity` (lines 468-477). -/
def userPopulate {S : Type} (B : Backend S) (r : CreateRStmt) (method : RecMethod)
    (modelname : String) (attnames attvalues : List String) (stats : S) : Int :=
  if method = RecMethod.userCosCF then
    B.updateUserCosModel r.usertable r.itemtable r.ratingtable r.userkey r.itemkey
      r.ratingval modelname attnames attvalues stats
  else if method = RecMethod.userPearCF then
    B.updateUserPearModel r.usertable r.itemtable r.ratingtable r.userkey r.itemkey
      r.ratingval modelname attnames attvalues stats
  else 0

/-- One iteration of the `userSimilarity` cell loop (lines 414-494, 506-568):
identical shape to the item-similarity cell, with the user populate calls. -/
def userCell {S : Type} (B : Backend S) (r : CreateRStmt) (method : RecMethod)
    (pre : Option (PrecompKind × S)) (attnames : List String) (t : Timeval)
    (ltime : Nat) (cell : List String) : List (Event S) × IndexRow :=
  let modelname := recModelName r.relname t
  let viewname := recViewName r.relname t
  let numRatings : Int :=
    match pre with
    | some (_, st) => userPopulate B r method modelname attnames cell st
    | none => 0
  let popEvents : List (Event S) :=
    match pre with
    | some (_, st) => [Event.populate [modelname] attnames cell (some st) numRatings]
    | none => []
  let row : IndexRow := ⟨modelname, none, viewname, 0, numRatings, 0, 0, 0, ltime, cell⟩
  ([Event.createTable modelname, Event.createTable viewname, Event.insertView viewname]
    ++ popEvents ++ [Event.insertIndex (recIndexName r.relname) row], row)

/-- `userSimilarity` (source lines 342-569). -/
def userSimilarity {S : Type} (B : Backend S) (r : CreateRStmt) (attList : List String)
    (db : String → List Row) (ts : Nat → Timeval) (lt : Nat → Nat) (method : RecMethod) :
    List (Event S) × List IndexRow :=
  let pre := userStats B r method
  let preEvents : List (Event S) :=
    match pre with
    | some (k, _) => [Event.precompute k r.usertable r.userkey r.ratingtable r.ratingval]
    | none => []
  let cells := enumeratedCells r attList db
  let results := (List.range cells.length).map
    (fun i => userCell B r method pre attList (ts i) (lt i) (cells.getD i []))
  (preEvents ++ (results.map Prod.fst).flatten, results.map Prod.snd)

/-- One iteration of the `SVDSimilarity` cell loop (lines 631-714, 726-791):
one `gettimeofday` read names the user model, the item model and the view; the
three tables are created, the dummy view tuple inserted, `SVDsimilarity`
called (no precomputed statistics), and one index row inserted with both model
names. -/
def SVDCell {S : Type} (B : Backend S) (r : CreateRStmt) (attnames : List String)
    (t : Timeval) (ltime : Nat) (cell : List String) : List (Event S) × IndexRow :=
  let recusermodelname := recUserModelName r.relname t
  let recitemmodelname := recItemModelName r.relname t
  let viewname := recViewName r.relname t
  let numRatings : Int :=
    B.SVDsimilarity r.usertable r.userkey r.itemtable r.itemkey r.ratingtable
      r.ratingval recusermodelname recitemmodelname attnames cell
  let row : IndexRow :=
    ⟨recusermodelname, some recitemmodelname, viewname, 0, numRatings, 0, 0, 0, ltime, cell⟩
  ([Event.createTable recusermodelname, Event.createTable recitemmodelname,
    Event.createTable viewname, Event.insertView viewname,
    Event.populate [recusermodelname, recitemmodelname] attnames cell none numRatings,
    Event.insertIndex (recIndexName r.relname) row], row)

/-- `SVDSimilarity` (source lines 574-792): no statistics precomputation at
all; otherwise the same enumeration and per-cell loop. -/
def SVDSimilarity {S : Type} (B : Backend S) (r : CreateRStmt) (attList : List String)
    (db : String → List Row) (ts : Nat → Timeval) (lt : Nat → Nat) :
    List (Event S) × List IndexRow :=
  let cells := enumeratedCells r attList db
  let results := (List.range cells.length).map
    (fun i => SVDCell B r attList (ts i) (lt i) (cells.getD i []))
  ((results.map Prod.fst).flatten, results.map Prod.snd)

/-- The `switch (method)` dispatch of the `T_CreateRStmt` handler
(lines 1399-1417). -/
def createModels {S : Type} (B : Backend S) (r : CreateRStmt) (attList : List String)
    (db : String → List Row) (ts : Nat → Timeval) (lt : Nat → Nat) :
    List (Event S) × List IndexRow :=
  match r.method with
  | RecMethod.itemCosCF => itemSimilarity B r attList db ts lt RecMethod.itemCosCF
  | RecMethod.itemPearCF => itemSimilarity B r attList db ts lt RecMethod.itemPearCF
  | RecMethod.userCosCF => userSimilarity B r attList db ts lt RecMethod.userCosCF
  | RecMethod.userPearCF => userSimilarity B r attList db ts lt RecMethod.userPearCF
  | RecMethod.SVD => SVDSimilarity B r attList db ts lt

/-- All model and view table names generated for the rows of one build, in
order: for each cell its model name(s) then its view name. -/
def allArtifactNames (rows : List IndexRow) : List String :=
  rows.flatMap (fun row => [row.modelname1] ++ row.modelname2.toList ++ [row.viewname])

/-- The single row of `RecathonProperties`: `INSERT INTO RecathonProperties
VALUES (0.5, 0, true);` (line 1366). -/
structure PropertiesRow where
  update_threshold : Rat
  tail_length : Int
  verbose_queries : Bool
deriving DecidableEq

/-- The defaults inserted when the properties table is first created. -/
def defaultPropertiesRow : PropertiesRow :=
  ⟨1 / 2, 0, true⟩

/-- One row of `RecModelsCatalogue` (schema at line 1339, insert at 1345). -/
structure CatalogueRow where
  recommenderIndexName : String
  userTable : String
  itemTable : String
  ratingTable : String
  userKey : String
  itemKey : String
  ratingVal : String
  method : String
  contextattributes : Nat
deriving DecidableEq

/-- The visible database state the catalog-level code manipulates.  `tables`
holds the lower-cased relation names that exist (SQL folds unquoted
identifiers to lower case); `catalogueExists` mirrors
`relationExists(recmodelscatalogue)`; `properties = none` means the
`RecathonProperties` table does not exist; `indexContents` gives the rows of
each (lower-cased) index table. -/
structure DBState where
  tables : List String
  catalogueExists : Bool
  catalogue : List CatalogueRow
  properties : Option (List PropertiesRow)
  indexContents : String → List IndexRow

/-- The catalogue row the build inserts (line 1345): index-table name
`%sIndex`, the source tables, keys, the raw method string and the attribute
count. -/
def catalogueRowOf (r : CreateRStmt) (numatts : Nat) : CatalogueRow :=
  ⟨recIndexName r.relname, r.usertable, r.itemtable, r.ratingtable,
   r.userkey, r.itemkey, r.ratingval, r.methodname, numatts⟩

/-- The infrastructure part of the `T_CreateRStmt` handler (lines 1337-1391):
`CREATE TABLE IF NOT EXISTS RecModelsCatalogue`, insert the catalogue row,
create `RecathonProperties` with its defaults row only when
`!relationExists(recathonproperties)`, then create the `%sIndex` table. -/
def createRInfra (s : DBState) (r : CreateRStmt) (numatts : Nat) : DBState :=
  let s1 : DBState := { s with catalogueExists := true }
  let s2 : DBState := { s1 with catalogue := s1.catalogue ++ [catalogueRowOf r numatts] }
  let s3 : DBState :=
    { s2 with properties :=
        match s2.properties with
        | none => some [defaultPropertiesRow]
        | some l => some l }
  { s3 with tables := s3.tables ++ [strLower (recIndexName r.relname)] }

/-- Operations the destroy path issues, in order. -/
inductive DropOp where
  | enumerate (indexTable : String)
  | dropTable (name : String)
  | deleteCatalogueRow (indexName : String)
deriving DecidableEq

/-- Modelled from the spec: `recathon_utilityExecute("drop table %s;")` lives
in `utils/recathon.c`, which is not under `src/`.  Per §4.4/§9 each drop is
independent and best-effort in the reference behavior, so a drop removes the
(lower-cased) relation if present and is a no-op otherwise. -/
def dropTableFn (tables : List String) (name : String) : List String :=
  tables.filter (fun t => t ≠ strLower name)

/-- Sequential best-effort drops, one per enumerated artifact name. -/
def dropList (tables : List String) (names : List String) : List String :=
  names.foldl dropTableFn tables

/-- Modelled from the spec: `recommenderExists(recname)` of
`utils/recathon.c` (§6: `recommenderExists(name) → bool`), checking the
recommender-list table for the named recommender; consistent with the
destroy path's own catalogue delete, it matches on the index-table name
`recname ++ "Index"`. -/
def recommenderExists (s : DBState) (recname : String) : Bool :=
  s.catalogue.any (fun c => c.recommenderIndexName = recname ++ "Index")

/-- Modelled from the spec: `getRecInfo(recindexname,...,&method,...)` of
`utils/recathon.c` (§6: `fetchAlgorithmFamily(indexTableName) → family`),
reading the stored method string of the catalogue row for this index table. -/
def getRecMethod (s : DBState) (recname : String) : String :=
  ((s.catalogue.find? (fun c => c.recommenderIndexName = recname ++ "Index")).map
    (fun c => c.method)).getD ""

/-- The `cell_node` contents materialised by the destroy scan (lines
1484-1505). -/
structure CellNode where
  modelname1 : String
  modelname2 : Option String
  viewname : String
deriving DecidableEq

/-- What the destroy scan extracts from one index row (lines 1489-1496):
for `svd` the `recusermodelname` and `recitemmodelname` columns, otherwise
the single `recmodelname` column; always the `recviewname` column. -/
def cellOfRow (method : String) (row : IndexRow) : CellNode :=
  if method = "svd" then ⟨row.modelname1, row.modelname2, row.viewname⟩
  else ⟨row.modelname1, none, row.viewname⟩

/-- The artifact names one cell's drop loop iteration touches, in drop order:
`modelname1`, then `modelname2` when present, then the view (lines 1521-1543). -/
def cellDropNames (c : CellNode) : List String :=
  [c.modelname1] ++ c.modelname2.toList ++ [c.viewname]

/-- The in-memory cell list the destroy path builds by scanning
`select * from %sindex;` (lines 1470-1506). -/
def destroyCells (s : DBState) (recname : String) : List CellNode :=
  (s.indexContents (recname ++ "index")).map (cellOfRow (getRecMethod s recname))

/-- Result of one destroy request: the fatal error or success, the non-fatal
warnings, the operations issued, and the resulting database state. -/
structure DestroyOutcome where
  result : Except String Unit
  warnings : List String
  ops : List DropOp
  state : DBState

/-- The `T_DropRecStmt` handler (lines 1426-1561): lower-case the requested
name, fail fatally when `recmodelscatalogue` does not exist or the
recommender is not in it, otherwise enumerate the cells from the index table,
warn when none were found, best-effort-drop every cell's model and view
tables, drop the index table, and delete the catalogue row whose
`recommenderindexname` equals `'%sIndex'`. -/
def destroyRec (s : DBState) (dropname : String) : DestroyOutcome :=
  let recname := strLower dropname
  if s.catalogueExists = false then
    ⟨Except.error "no recommenders have been created", [], [], s⟩
  else if recommenderExists s recname = false then
    ⟨Except.error ("recommender " ++ recname ++ " does not exist"), [], [], s⟩
  else
    let cells := destroyCells s recname
    let warns :=
      if cells.isEmpty then ["failed to find cells for recommender " ++ recname] else []
    let dropNames := cells.flatMap cellDropNames
    let tables1 := dropList s.tables dropNames
    let tables2 := dropTableFn tables1 (recname ++ "index")
    let catalogue2 :=
      s.catalogue.filter (fun c => ¬(c.recommenderIndexName = recname ++ "Index"))
    ⟨Except.ok (), warns,
     [DropOp.enumerate (recname ++ "index")] ++ dropNames.map DropOp.dropTable
       ++ [DropOp.dropTable (recname ++ "index"), DropOp.deleteCatalogueRow (recname ++ "Index")],
     { s with tables := tables2, catalogue := catalogue2 }⟩

/-! ### Helper lemmas -/

theorem str_ext {s t : String} (h : s.data = t.data) : s = t := by
  cases s; cases t; exact congrArg String.mk h

theorem str_append_left_cancel {a b c : String} (h : a ++ b = a ++ c) : b = c := by
  have hd : a.data ++ b.data = a.data ++ c.data := by
    have h2 := congrArg String.data h
    simpa using h2
  exact str_ext (List.append_inj_right hd rfl)

theorem tag_suffix_inj {base tag s t : String}
    (h : base ++ tag ++ s = base ++ tag ++ t) : s = t :=
  str_append_left_cancel (a := base ++ tag) h

theorem append_tag_ne (base t1 t2 s1 s2 : String) (c1 c2 : Char) (r1 r2 : List Char)
    (h1 : t1.data = c1 :: r1) (h2 : t2.data = c2 :: r2) (hc : c1 ≠ c2) :
    base ++ t1 ++ s1 ≠ base ++ t2 ++ s2 := by
  intro h
  have hd : base.data ++ (t1.data ++ s1.data) = base.data ++ (t2.data ++ s2.data) := by
    have h3 := congrArg String.data h
    simpa [List.append_assoc] using h3
  have hd2 : t1.data ++ s1.data = t2.data ++ s2.data := List.append_inj_right hd rfl
  rw [h1, h2] at hd2
  simp only [List.cons_append, List.cons.injEq] at hd2
  exact hc hd2.1

theorem mem_dropTableFn {t : List String} {n x : String} :
    x ∈ dropTableFn t n ↔ x ∈ t ∧ x ≠ strLower n := by
  simp [dropTableFn]

theorem mem_dropList {names : List String} {t : List String} {x : String} :
    x ∈ dropList t names ↔ x ∈ t ∧ ∀ n ∈ names, x ≠ strLower n := by
  induction names generalizing t with
  | nil => simp [dropList]
  | cons n ns ih =>
    have hrw : dropList t (n :: ns) = dropList (dropTableFn t n) ns := rfl
    rw [hrw, ih, mem_dropTableFn]
    constructor
    · rintro ⟨⟨hx, hn⟩, hns⟩
      refine ⟨hx, ?_⟩
      intro m hm
      rcases List.mem_cons.mp hm with h | h
      · exact h ▸ hn
      · exact hns m h
    · rintro ⟨hx, hall⟩
      exact ⟨⟨hx, hall n (List.mem_cons_self n ns)⟩, fun m hm => hall m (List.mem_cons_of_mem n hm)⟩

/-- Characterisation of the success path of `destroyRec`. -/
theorem destroyRec_ok (s : DBState) (dropname : String)
    (h1 : s.catalogueExists = true)
    (h2 : recommenderExists s (strLower dropname) = true) :
    destroyRec s dropname =
      ⟨Except.ok (),
       (if (destroyCells s (strLower dropname)).isEmpty then
          ["failed to find cells for recommender " ++ strLower dropname] else []),
       [DropOp.enumerate (strLower dropname ++ "index")]
         ++ ((destroyCells s (strLower dropname)).flatMap cellDropNames).map DropOp.dropTable
         ++ [DropOp.dropTable (strLower dropname ++ "index"),
             DropOp.deleteCatalogueRow (strLower dropname ++ "Index")],
       { s with
           tables := dropTableFn
             (dropList s.tables ((destroyCells s (strLower dropname)).flatMap cellDropNames))
             (strLower dropname ++ "index"),
           catalogue := s.catalogue.filter
             (fun c => ¬(c.recommenderIndexName = strLower dropname ++ "Index")) }⟩ := by
  simp [destroyRec, h1, h2]

/-! ### Concrete instances used by witnesses and counterexamples -/

/-- A database in which no recommender was ever created. -/
def stateNoCatalogue : DBState := ⟨[], false, [], none, fun _ => []⟩

/-- A database with an empty recommender-list table. -/
def stateEmptyCatalogue : DBState := ⟨[], true, [], none, fun _ => []⟩

/-- The catalogue row of a recommender `foo` built with an item-CF method. -/
def fooCatalogueRow : CatalogueRow :=
  ⟨"fooIndex", "users", "items", "ratings", "uid", "iid", "rating", "itemcossimilarity", 0⟩

/-- One index row of `foo`. -/
def fooIndexRow : IndexRow :=
  ⟨"fooModel12", none, "fooView12", 0, 5, 0, 0, 0, 7, []⟩

/-- A fully built recommender `foo` with one cell. -/
def stateWithFoo : DBState :=
  ⟨["fooindex", "foomodel12", "fooview12"], true, [fooCatalogueRow],
   some [defaultPropertiesRow],
   fun n => if n = "fooindex" then [fooIndexRow] else []⟩

/-- A partially built `foo`: its index row mentions a model table and a view
table that do not exist. -/
def stateWithFooPartial : DBState :=
  ⟨["fooindex"], true, [fooCatalogueRow], none,
   fun n => if n = "fooindex" then [fooIndexRow] else []⟩

/-- `foo` resolves in the catalogue but its index table holds zero rows. -/
def stateFooNoCells : DBState :=
  ⟨["fooindex"], true, [fooCatalogueRow], none, fun _ => []⟩

/-! ### C7 -/

/-- C7 counterexample: destroying with no recommender-list table present
raises the fatal message `no recommenders have been created`, not the
claimed `no recommenders defined`. -/
theorem c7_counterexample :
    (destroyRec stateNoCatalogue "foo").result
      = Except.error "no recommenders have been created" ∧
    "no recommenders have been created" ≠ "no recommenders defined" :=
  ⟨rfl, by decide⟩

/-- C7 (amended): a destroy request for a name that was never built fails
with a fatal `recommender ... does not exist` error, and a destroy request
issued when no recommender-list table exists fails with a fatal
`no recommenders have been created` error; in both cases the errors are
raised before any artifact or catalog mutation (the outcome carries the
input state unchanged and an empty operation list), and the requested name
is case-folded before these checks. -/
theorem c7_destroy_errors (s : DBState) (dropname : String) :
    (s.catalogueExists = false →
      destroyRec s dropname
        = ⟨Except.error "no recommenders have been created", [], [], s⟩) ∧
    (s.catalogueExists = true → recommenderExists s (strLower dropname) = false →
      destroyRec s dropname
        = ⟨Except.error ("recommender " ++ strLower dropname ++ " does not exist"),
           [], [], s⟩) := by
  constructor
  · intro h
    simp [destroyRec, h]
  · intro h1 h2
    simp [destroyRec, h1, h2]

/-- Witness for C7 at concrete inputs. -/
theorem c7_witness :
    destroyRec stateNoCatalogue "foo"
      = ⟨Except.error "no recommenders have been created", [], [], stateNoCatalogue⟩ ∧
    destroyRec stateEmptyCatalogue "Foo"
      = ⟨Except.error ("recommender " ++ strLower "Foo" ++ " does not exist"),
         [], [], stateEmptyCatalogue⟩ :=
  ⟨(c7_destroy_errors stateNoCatalogue "foo").1 rfl,
   (c7_destroy_errors stateEmptyCatalogue "Foo").2 rfl rfl⟩

/-! ### C8 -/

/-- C8: when the index-table scan succeeds but yields zero cell rows, destroy
emits the non-fatal `failed to find cells` warning and continues: it still
succeeds, the index table is dropped (no relation with the folded name of
`%sindex` remains) and the recommender's catalogue row is deleted. -/
theorem c8_zero_cells_warning (s : DBState) (dropname : String)
    (h1 : s.catalogueExists = true)
    (h2 : recommenderExists s (strLower dropname) = true)
    (h3 : s.indexContents (strLower dropname ++ "index") = []) :
    (destroyRec s dropname).result = Except.ok () ∧
    (destroyRec s dropname).warnings
      = ["failed to find cells for recommender " ++ strLower dropname] ∧
    strLower (strLower dropname ++ "index") ∉ (destroyRec s dropname).state.tables ∧
    (∀ c ∈ (destroyRec s dropname).state.catalogue,
      c.recommenderIndexName ≠ strLower dropname ++ "Index") := by
  rw [destroyRec_ok s dropname h1 h2]
  have hcells : destroyCells s (strLower dropname) = [] := by
    simp [destroyCells, h3]
  refine ⟨rfl, ?_, ?_, ?_⟩
  · simp [hcells]
  · intro hmem
    exact (mem_dropTableFn.mp hmem).2 rfl
  · intro c hc
    have := (List.mem_filter.mp hc).2
    simpa using this

/-- Witness for C8 at a concrete state. -/
theorem c8_witness :
    (destroyRec stateFooNoCells "foo").result = Except.ok () ∧
    (destroyRec stateFooNoCells "foo").warnings
      = ["failed to find cells for recommender " ++ strLower "foo"] ∧
    strLower (strLower "foo" ++ "index") ∉ (destroyRec stateFooNoCells "foo").state.tables ∧
    (∀ c ∈ (destroyRec stateFooNoCells "foo").state.catalogue,
      c.recommenderIndexName ≠ strLower "foo" ++ "Index") :=
  c8_zero_cells_warning stateFooNoCells "foo" rfl rfl rfl

/-! ### C2 -/

/-- C2: the per-cell artifact drops of destroy are independent and
best-effort: for any state — in particular a partially-built recommender
whose enumerated model or view tables are missing — destroy still succeeds,
and a drop operation is issued for every enumerated artifact of every cell
(no drop aborts the loop). -/
theorem c2_destroy_best_effort (s : DBState) (dropname : String)
    (h1 : s.catalogueExists = true)
    (h2 : recommenderExists s (strLower dropname) = true) :
    (destroyRec s dropname).result = Except.ok () ∧
    (∀ c ∈ destroyCells s (strLower dropname), ∀ n ∈ cellDropNames c,
      DropOp.dropTable n ∈ (destroyRec s dropname).ops) := by
  rw [destroyRec_ok s dropname h1 h2]
  refine ⟨rfl, ?_⟩
  intro c hc n hn
  have hmem : n ∈ (destroyCells s (strLower dropname)).flatMap cellDropNames :=
    List.mem_flatMap.mpr ⟨c, hc, hn⟩
  exact List.mem_append_left _ (List.mem_append_right _ (List.mem_map.mpr ⟨n, hmem, rfl⟩))

/-- Witness for C2: a partially-built recommender (its model and view tables
are absent) is destroyed without error, with every artifact drop issued. -/
theorem c2_witness :
    (destroyRec stateWithFooPartial "foo").result = Except.ok () ∧
    (∀ c ∈ destroyCells stateWithFooPartial (strLower "foo"), ∀ n ∈ cellDropNames c,
      DropOp.dropTable n ∈ (destroyRec stateWithFooPartial "foo").ops) :=
  c2_destroy_best_effort stateWithFooPartial "foo" rfl rfl

/-! ### C5 -/

/-- C5: after a successful destroy, none of the model or view tables
enumerated from the index table exist (no relation with their folded names
remains), the index table does not exist, the recommender-list table has no
row referencing the recommender, and the operations happen in the order:
enumerate cells, drop each cell's artifacts, drop the index table, delete
the catalogue row matched by index-table name. -/
theorem c5_destroy_complete (s : DBState) (dropname : String)
    (h1 : s.catalogueExists = true)
    (h2 : recommenderExists s (strLower dropname) = true) :
    (destroyRec s dropname).result = Except.ok () ∧
    (∀ c ∈ destroyCells s (strLower dropname),
      strLower c.modelname1 ∉ (destroyRec s dropname).state.tables ∧
      (∀ m2 ∈ c.modelname2, strLower m2 ∉ (destroyRec s dropname).state.tables) ∧
      strLower c.viewname ∉ (destroyRec s dropname).state.tables) ∧
    strLower (strLower dropname ++ "index") ∉ (destroyRec s dropname).state.tables ∧
    (∀ cr ∈ (destroyRec s dropname).state.catalogue,
      cr.recommenderIndexName ≠ strLower dropname ++ "Index") ∧
    (destroyRec s dropname).ops
      = [DropOp.enumerate (strLower dropname ++ "index")]
          ++ ((destroyCells s (strLower dropname)).flatMap cellDropNames).map DropOp.dropTable
          ++ [DropOp.dropTable (strLower dropname ++ "index"),
              DropOp.deleteCatalogueRow (strLower dropname ++ "Index")] := by
  rw [destroyRec_ok s dropname h1 h2]
  have key : ∀ n ∈ (destroyCells s (strLower dropname)).flatMap cellDropNames,
      strLower n ∉ dropTableFn
        (dropList s.tables ((destroyCells s (strLower dropname)).flatMap cellDropNames))
        (strLower dropname ++ "index") := by
    intro n hn hmem
    have h3 := mem_dropTableFn.mp hmem
    have h4 := mem_dropList.mp h3.1
    exact h4.2 n hn rfl
  refine ⟨rfl, ?_, ?_, ?_, rfl⟩
  · intro c hc
    refine ⟨?_, ?_, ?_⟩
    · exact key _ (List.mem_flatMap.mpr ⟨c, hc, by simp [cellDropNames]⟩)
    · intro m2 hm2
      exact key _ (List.mem_flatMap.mpr ⟨c, hc, by simp [cellDropNames, hm2]⟩)
    · exact key _ (List.mem_flatMap.mpr ⟨c, hc, by simp [cellDropNames]⟩)
  · intro hmem
    exact (mem_dropTableFn.mp hmem).2 rfl
  · intro cr hcr
    have := (List.mem_filter.mp hcr).2
    simpa using this

/-- Witness for C5 at a concrete fully-built recommender. -/
theorem c5_witness :
    (destroyRec stateWithFoo "foo").result = Except.ok () ∧
    (∀ c ∈ destroyCells stateWithFoo (strLower "foo"),
      strLower c.modelname1 ∉ (destroyRec stateWithFoo "foo").state.tables ∧
      (∀ m2 ∈ c.modelname2, strLower m2 ∉ (destroyRec stateWithFoo "foo").state.tables) ∧
      strLower c.viewname ∉ (destroyRec stateWithFoo "foo").state.tables) ∧
    strLower (strLower "foo" ++ "index") ∉ (destroyRec stateWithFoo "foo").state.tables ∧
    (∀ cr ∈ (destroyRec stateWithFoo "foo").state.catalogue,
      cr.recommenderIndexName ≠ strLower "foo" ++ "Index") ∧
    (destroyRec stateWithFoo "foo").ops
      = [DropOp.enumerate (strLower "foo" ++ "index")]
          ++ ((destroyCells stateWithFoo (strLower "foo")).flatMap cellDropNames).map
              DropOp.dropTable
          ++ [DropOp.dropTable (strLower "foo" ++ "index"),
              DropOp.deleteCatalogueRow (strLower "foo" ++ "Index")] :=
  c5_destroy_complete stateWithFoo "foo" rfl rfl

/-! ### C6 -/

/-- A concrete item-cosine build request used by witnesses. -/
def fooStmt : CreateRStmt :=
  ⟨"foo", "users", "items", "ratings", "uid", "iid", "rating",
   "itemcossimilarity", RecMethod.itemCosCF⟩

/-- C6: the global properties row is created with its defaults only when the
properties table is absent, an existing properties table is left unchanged by
every build, and building a second recommender after a first leaves the
properties of the first build untouched (no duplication, no recreation). -/
theorem c6_properties_idempotent (s : DBState) (r1 r2 : CreateRStmt) (n1 n2 : Nat) :
    (s.properties = none →
      (createRInfra s r1 n1).properties = some [defaultPropertiesRow]) ∧
    (∀ l, s.properties = some l → (createRInfra s r1 n1).properties = some l) ∧
    (createRInfra (createRInfra s r1 n1) r2 n2).properties
      = (createRInfra s r1 n1).properties := by
  refine ⟨?_, ?_, ?_⟩
  · intro h
    simp [createRInfra, h]
  · intro l h
    simp [createRInfra, h]
  · cases h : s.properties <;> simp [createRInfra, h]

/-- Witness for C6: two successive builds starting from an empty database
create the default properties row once and leave it unchanged. -/
theorem c6_witness :
    (createRInfra stateNoCatalogue fooStmt 0).properties = some [defaultPropertiesRow] ∧
    (createRInfra stateWithFoo fooStmt 0).properties = some [defaultPropertiesRow] ∧
    (createRInfra (createRInfra stateNoCatalogue fooStmt 0) fooStmt 0).properties
      = (createRInfra stateNoCatalogue fooStmt 0).properties :=
  ⟨(c6_properties_idempotent stateNoCatalogue fooStmt fooStmt 0 0).1 rfl,
   (c6_properties_idempotent stateWithFoo fooStmt fooStmt 0 0).2.1 [defaultPropertiesRow] rfl,
   (c6_properties_idempotent stateNoCatalogue fooStmt fooStmt 0 0).2.2⟩

/-! ### C4 -/

/-- Every family's build produces one index row per enumerated cell. -/
theorem createModels_rows_length {S : Type} (B : Backend S) (r : CreateRStmt)
    (attList : List String) (db : String → List Row) (ts : Nat → Timeval) (lt : Nat → Nat) :
    ((createModels B r attList db ts lt).2).length = (enumeratedCells r attList db).length := by
  cases hm : r.method <;>
    simp [createModels, hm, itemSimilarity, userSimilarity, SVDSimilarity]

/-- C4: the partition enumeration is duplicate-free; with a non-empty
attribute set it contains exactly the attribute-value combinations present in
the user table; with an empty attribute set it is exactly one empty
combination and exactly one cell is built; and it depends only on the user
table's rows (not on the rating table or anything else in the database). -/
theorem c4_partition_complete {S : Type} (B : Backend S) (r : CreateRStmt)
    (attList : List String) (db db' : String → List Row)
    (ts : Nat → Timeval) (lt : Nat → Nat) :
    (enumeratedCells r attList db).Nodup ∧
    (attList ≠ [] → ∀ c, c ∈ enumeratedCells r attList db ↔
      ∃ row ∈ db r.usertable, attList.map (fun a => row a) = c) ∧
    (attList = [] →
      enumeratedCells r attList db = [[]] ∧
      ((createModels B r attList db ts lt).2).length = 1) ∧
    (db r.usertable = db' r.usertable →
      enumeratedCells r attList db = enumeratedCells r attList db') := by
  refine ⟨?_, ?_, ?_, ?_⟩
  · unfold enumeratedCells partitionCells
    split
    · exact List.nodup_dedup _
    · simp
  · intro hne c
    have hpos : 0 < attList.length := List.length_pos.mpr hne
    unfold enumeratedCells partitionCells
    rw [if_pos hpos]
    simp [List.mem_dedup]
  · intro he
    subst he
    have hlen := createModels_rows_length B r [] db ts lt
    have hcells : enumeratedCells r [] db = [[]] := rfl
    exact ⟨hcells, by rw [hlen, hcells]; rfl⟩
  · intro h
    unfold enumeratedCells
    rw [h]

/-- A sample user-table row with `region = east`. -/
def rowEast : Row := fun a => if a = "region" then "east" else "0"

/-- A sample user-table row with `region = west`. -/
def rowWest : Row := fun a => if a = "region" then "west" else "0"

/-- A sample database: the `users` table has three rows over two regions. -/
def sampleDB : String → List Row :=
  fun n => if n = "users" then [rowEast, rowEast, rowWest] else []

/-- A concrete modeling backend over `Nat` statistics. -/
def natBackend : Backend Nat :=
  ⟨fun _ _ _ _ => 1, fun _ _ _ _ => 2,
   fun _ _ _ _ _ _ _ _ _ _ => 3, fun _ _ _ _ _ _ _ _ _ _ => 4,
   fun _ _ _ _ _ _ _ _ _ _ => 5, fun _ _ _ _ _ _ _ _ _ _ => 6,
   fun _ _ _ _ _ _ _ _ _ _ => 7⟩

/-- Witness for C4 at a concrete database. -/
theorem c4_witness :
    (["east"] ∈ enumeratedCells fooStmt ["region"] sampleDB ↔
      ∃ row ∈ sampleDB "users", ["region"].map (fun a => row a) = ["east"]) ∧
    (enumeratedCells fooStmt [] sampleDB = [[]] ∧
      ((createModels natBackend fooStmt [] sampleDB (fun _ => ⟨1, 2⟩) (fun _ => 0)).2).length
        = 1) :=
  ⟨(c4_partition_complete natBackend fooStmt ["region"] sampleDB sampleDB
      (fun _ => ⟨1, 2⟩) (fun _ => 0)).2.1 (by decide) ["east"],
   (c4_partition_complete natBackend fooStmt [] sampleDB sampleDB
      (fun _ => ⟨1, 2⟩) (fun _ => 0)).2.2.1 rfl⟩

/-! ### Event observations -/

/-- Is the event a statistics precomputation call? -/
def isPrecomputeEv {S : Type} : Event S → Bool
  | Event.precompute _ _ _ _ _ => true
  | _ => false

/-- Is the event a populate call into the modeling backend? -/
def isPopulateEv {S : Type} : Event S → Bool
  | Event.populate _ _ _ _ _ => true
  | _ => false

/-- The ratings count returned by a populate call, when the event is one. -/
def populateNum {S : Type} : Event S → Option Int
  | Event.populate _ _ _ _ n => some n
  | _ => none

/-- The stats argument a populate call received, when the event is one. -/
def populateStats {S : Type} : Event S → Option (Option S)
  | Event.populate _ _ _ st _ => some st
  | _ => none

/-- The index-table name an insert-index event targets, when the event is one. -/
def insertIndexName {S : Type} : Event S → Option String
  | Event.insertIndex n _ => some n
  | _ => none

theorem flatten_map_singleton {α β : Type _} (l : List α) (g : α → β) :
    ((l.map (fun a => [g a])).flatten) = l.map g := by
  induction l with
  | nil => rfl
  | cons a l ih => simp [ih]

theorem getD_map_range {β : Type _} {K i : Nat} (g : Nat → β) (d : β) (h : i < K) :
    (((List.range K).map g).getD i d) = g i := by
  rw [List.getD_eq_getElem?_getD, List.getElem?_map, List.getElem?_range h]
  rfl

/-! ### C3 -/

/-- C3: after a build with K enumerated cells the index table receives
exactly K rows; the sequence of populate-call return values equals the
sequence of rating totals of the inserted rows (each row's rating total is
the value the modeling backend returned for that cell); and every row
records update counter 0, query counter 0, update and query rates 0.0, the
creation timestamp of its cell, and the cell's attribute values in the
enumerated column order. -/
theorem c3_catalog_roundtrip {S : Type} (B : Backend S) (r : CreateRStmt)
    (attList : List String) (db : String → List Row) (ts : Nat → Timeval) (lt : Nat → Nat) :
    ((createModels B r attList db ts lt).2).length = (enumeratedCells r attList db).length ∧
    ((createModels B r attList db ts lt).1).filterMap populateNum
      = ((createModels B r attList db ts lt).2).map (fun row => row.ratingTotal) ∧
    (∀ i, i < ((createModels B r attList db ts lt).2).length →
      (((createModels B r attList db ts lt).2).getD i emptyIndexRow).updateCounter = 0 ∧
      (((createModels B r attList db ts lt).2).getD i emptyIndexRow).queryCounter = 0 ∧
      (((createModels B r attList db ts lt).2).getD i emptyIndexRow).updateRate = 0 ∧
      (((createModels B r attList db ts lt).2).getD i emptyIndexRow).queryRate = 0 ∧
      (((createModels B r attList db ts lt).2).getD i emptyIndexRow).levelone_timestamp = lt i ∧
      (((createModels B r attList db ts lt).2).getD i emptyIndexRow).attvalues
        = (enumeratedCells r attList db).getD i []) := by
  refine ⟨createModels_rows_length B r attList db ts lt, ?_, ?_⟩
  · cases hm : r.method <;>
      · simp only [createModels, hm, itemSimilarity, userSimilarity, SVDSimilarity,
          itemStats, userStats, itemCell, userCell, SVDCell, List.filterMap_append,
          List.filterMap_flatten, List.map_map, reduceIte, List.filterMap_cons,
          List.filterMap_nil, populateNum, List.nil_append, List.append_nil]
        conv_rhs =>
          rw [← flatten_map_singleton (List.range (enumeratedCells r attList db).length)]
        apply congrArg List.flatten
        apply List.map_congr_left
        intro i hi
        simp [populateNum, Function.comp]
  · intro i hi
    have hK : i < (enumeratedCells r attList db).length := by
      rwa [createModels_rows_length] at hi
    cases hm : r.method <;>
      simp [createModels, hm, itemSimilarity, userSimilarity, SVDSimilarity,
        itemStats, userStats, itemCell, userCell, SVDCell,
        List.map_map, Function.comp, List.getElem?_range hK]

/-- Clock readings used by witnesses: distinct microseconds per cell. -/
def tsW : Nat → Timeval := fun i => ⟨10, i⟩

/-- `localtimestamp` readings used by witnesses. -/
def ltW : Nat → Nat := fun i => 100 + i

/-- Witness for C3 at a concrete two-cell item-cosine build. -/
theorem c3_witness :
    ((createModels natBackend fooStmt ["region"] sampleDB tsW ltW).2).length
      = (enumeratedCells fooStmt ["region"] sampleDB).length ∧
    ((createModels natBackend fooStmt ["region"] sampleDB tsW ltW).1).filterMap populateNum
      = ((createModels natBackend fooStmt ["region"] sampleDB tsW ltW).2).map
          (fun row => row.ratingTotal) ∧
    (((createModels natBackend fooStmt ["region"] sampleDB tsW ltW).2).getD 0
        emptyIndexRow).updateCounter = 0 ∧
    (((createModels natBackend fooStmt ["region"] sampleDB tsW ltW).2).getD 0
        emptyIndexRow).levelone_timestamp = ltW 0 ∧
    (((createModels natBackend fooStmt ["region"] sampleDB tsW ltW).2).getD 0
        emptyIndexRow).attvalues = (enumeratedCells fooStmt ["region"] sampleDB).getD 0 [] := by
  have h := c3_catalog_roundtrip natBackend fooStmt ["region"] sampleDB tsW ltW
  have h0 := h.2.2 0 (by rw [h.1]; decide)
  exact ⟨h.1, h.2.1, h0.1, h0.2.2.2.2.1, h0.2.2.2.2.2⟩

/-! ### Name-shape lemmas -/

theorem recModelName_inj {base : String} {t u : Timeval}
    (h : recModelName base t = recModelName base u) : tsSuffix t = tsSuffix u :=
  tag_suffix_inj h

theorem recViewName_inj {base : String} {t u : Timeval}
    (h : recViewName base t = recViewName base u) : tsSuffix t = tsSuffix u :=
  tag_suffix_inj h

theorem recUserModelName_inj {base : String} {t u : Timeval}
    (h : recUserModelName base t = recUserModelName base u) : tsSuffix t = tsSuffix u :=
  tag_suffix_inj h

theorem recItemModelName_inj {base : String} {t u : Timeval}
    (h : recItemModelName base t = recItemModelName base u) : tsSuffix t = tsSuffix u :=
  tag_suffix_inj h

theorem recModelName_ne_viewName (base : String) (t u : Timeval) :
    recModelName base t ≠ recViewName base u :=
  append_tag_ne base "Model" "View" _ _ 'M' 'V' "odel".data "iew".data rfl rfl (by decide)

theorem recUserModelName_ne_itemModelName (base : String) (t u : Timeval) :
    recUserModelName base t ≠ recItemModelName base u :=
  append_tag_ne base "UserModel" "ItemModel" _ _ 'U' 'I' "serModel".data "temModel".data
    rfl rfl (by decide)

theorem recUserModelName_ne_viewName (base : String) (t u : Timeval) :
    recUserModelName base t ≠ recViewName base u :=
  append_tag_ne base "UserModel" "View" _ _ 'U' 'V' "serModel".data "iew".data
    rfl rfl (by decide)

theorem recItemModelName_ne_viewName (base : String) (t u : Timeval) :
    recItemModelName base t ≠ recViewName base u :=
  append_tag_ne base "ItemModel" "View" _ _ 'I' 'V' "temModel".data "iew".data
    rfl rfl (by decide)

/-! ### C1 -/

theorem nodup_sim_names (base : String) (ts : Nat → Timeval) (K : Nat)
    (hinj : ∀ i j, i < K → j < K → tsSuffix (ts i) = tsSuffix (ts j) → i = j) :
    ((List.range K).flatMap
      (fun i => [recModelName base (ts i), recViewName base (ts i)])).Nodup := by
  refine List.nodup_flatMap.mpr ⟨?_, ?_⟩
  · intro i _
    simp only [List.nodup_cons, List.mem_singleton, List.not_mem_nil, not_false_iff,
      List.nodup_nil, and_true]
    exact recModelName_ne_viewName base (ts i) (ts i)
  · refine (List.pairwise_lt_range K).imp_of_mem ?_
    intro i j hi hj hlt
    have hi' := List.mem_range.mp hi
    have hj' := List.mem_range.mp hj
    have hne : i ≠ j := Nat.ne_of_lt hlt
    intro x hx hy
    simp only [Function.onFun] at *
    simp only [List.mem_cons, List.mem_singleton, List.not_mem_nil, or_false] at hx hy
    rcases hx with rfl | rfl <;> rcases hy with h | h
    · exact hne (hinj i j hi' hj' (recModelName_inj h))
    · exact recModelName_ne_viewName base (ts i) (ts j) h
    · exact recModelName_ne_viewName base (ts j) (ts i) h.symm
    · exact hne (hinj i j hi' hj' (recViewName_inj h))

theorem nodup_svd_names (base : String) (ts : Nat → Timeval) (K : Nat)
    (hinj : ∀ i j, i < K → j < K → tsSuffix (ts i) = tsSuffix (ts j) → i = j) :
    ((List.range K).flatMap
      (fun i => [recUserModelName base (ts i), recItemModelName base (ts i),
                 recViewName base (ts i)])).Nodup := by
  refine List.nodup_flatMap.mpr ⟨?_, ?_⟩
  · intro i _
    simp only [List.nodup_cons, List.mem_cons, List.mem_singleton, List.not_mem_nil,
      not_false_iff, List.nodup_nil, and_true, not_or]
    exact ⟨⟨recUserModelName_ne_itemModelName base (ts i) (ts i),
            recUserModelName_ne_viewName base (ts i) (ts i)⟩,
           recItemModelName_ne_viewName base (ts i) (ts i)⟩
  · refine (List.pairwise_lt_range K).imp_of_mem ?_
    intro i j hi hj hlt
    have hi' := List.mem_range.mp hi
    have hj' := List.mem_range.mp hj
    have hne : i ≠ j := Nat.ne_of_lt hlt
    intro x hx hy
    simp only [Function.onFun] at *
    simp only [List.mem_cons, List.mem_singleton, List.not_mem_nil, or_false] at hx hy
    rcases hx with rfl | rfl | rfl <;> rcases hy with h | h | h
    · exact hne (hinj i j hi' hj' (recUserModelName_inj h))
    · exact recUserModelName_ne_itemModelName base (ts i) (ts j) h
    · exact recUserModelName_ne_viewName base (ts i) (ts j) h
    · exact recUserModelName_ne_itemModelName base (ts j) (ts i) h.symm
    · exact hne (hinj i j hi' hj' (recItemModelName_inj h))
    · exact recItemModelName_ne_viewName base (ts i) (ts j) h
    · exact recUserModelName_ne_viewName base (ts j) (ts i) h.symm
    · exact recItemModelName_ne_viewName base (ts j) (ts i) h.symm
    · exact hne (hinj i j hi' hj' (recViewName_inj h))

/-- C1 (amended): for every build of one recommender whose per-cell clock
readings yield pairwise distinct timestamp suffix strings, the generated
model and view table names of all its cells are pairwise distinct.  (The
implementation itself performs no collision avoidance or detection: two
cells falling in the same timestamp granularity receive identical names,
see the counterexample.) -/
theorem c1_names_nodup {S : Type} (B : Backend S) (r : CreateRStmt)
    (attList : List String) (db : String → List Row) (ts : Nat → Timeval) (lt : Nat → Nat)
    (hinj : ∀ i j, i < (enumeratedCells r attList db).length →
      j < (enumeratedCells r attList db).length →
      tsSuffix (ts i) = tsSuffix (ts j) → i = j) :
    (allArtifactNames (createModels B r attList db ts lt).2).Nodup := by
  cases hm : r.method
  case itemCosCF =>
    have heq : allArtifactNames (createModels B r attList db ts lt).2
        = (List.range (enumeratedCells r attList db).length).flatMap
            (fun i => [recModelName r.relname (ts i), recViewName r.relname (ts i)]) := by
      simp [createModels, hm, itemSimilarity, itemStats, itemCell, allArtifactNames,
        List.flatMap_map, Function.comp]
    rw [heq]
    exact nodup_sim_names r.relname ts _ hinj
  case itemPearCF =>
    have heq : allArtifactNames (createModels B r attList db ts lt).2
        = (List.range (enumeratedCells r attList db).length).flatMap
            (fun i => [recModelName r.relname (ts i), recViewName r.relname (ts i)]) := by
      simp [createModels, hm, itemSimilarity, itemStats, itemCell, allArtifactNames,
        List.flatMap_map, Function.comp]
    rw [heq]
    exact nodup_sim_names r.relname ts _ hinj
  case userCosCF =>
    have heq : allArtifactNames (createModels B r attList db ts lt).2
        = (List.range (enumeratedCells r attList db).length).flatMap
            (fun i => [recModelName r.relname (ts i), recViewName r.relname (ts i)]) := by
      simp [createModels, hm, userSimilarity, userStats, userCell, allArtifactNames,
        List.flatMap_map, Function.comp]
    rw [heq]
    exact nodup_sim_names r.relname ts _ hinj
  case userPearCF =>
    have heq : allArtifactNames (createModels B r attList db ts lt).2
        = (List.range (enumeratedCells r attList db).length).flatMap
            (fun i => [recModelName r.relname (ts i), recViewName r.relname (ts i)]) := by
      simp [createModels, hm, userSimilarity, userStats, userCell, allArtifactNames,
        List.flatMap_map, Function.comp]
    rw [heq]
    exact nodup_sim_names r.relname ts _ hinj
  case SVD =>
    have heq : allArtifactNames (createModels B r attList db ts lt).2
        = (List.range (enumeratedCells r attList db).length).flatMap
            (fun i => [recUserModelName r.relname (ts i), recItemModelName r.relname (ts i),
                       recViewName r.relname (ts i)]) := by
      simp [createModels, hm, SVDSimilarity, SVDCell, allArtifactNames,
        List.flatMap_map, Function.comp]
    rw [heq]
    exact nodup_svd_names r.relname ts _ hinj

/-- C1 counterexample: two cells of one build whose `gettimeofday` readings
fall in the same microsecond receive identical model and view names — the
build performs no collision avoidance or detection and still produces its
two index rows. -/
theorem c1_counterexample :
    ¬ (allArtifactNames
        (createModels natBackend fooStmt ["region"] sampleDB (fun _ => ⟨1, 2⟩)
          (fun _ => 0)).2).Nodup ∧
    ((createModels natBackend fooStmt ["region"] sampleDB (fun _ => ⟨1, 2⟩)
        (fun _ => 0)).2).length = 2 := by
  constructor
  · decide
  · decide

/-- Witness for C1 with distinct per-cell suffixes. -/
theorem c1_witness :
    (allArtifactNames
      (createModels natBackend fooStmt ["region"] sampleDB tsW ltW).2).Nodup := by
  refine c1_names_nodup natBackend fooStmt ["region"] sampleDB tsW ltW ?_
  intro i j hi hj h
  have h2 : i < 2 := by
    have : (enumeratedCells fooStmt ["region"] sampleDB).length = 2 := by decide
    omega
  have h2' : j < 2 := by
    have : (enumeratedCells fooStmt ["region"] sampleDB).length = 2 := by decide
    omega
  interval_cases i <;> interval_cases j <;>
    first
      | rfl
      | exact absurd h (by decide)

/-! ### C9 -/

theorem flatten_map_nil {α β : Type _} (l : List α) :
    ((l.map (fun _ => ([] : List β))).flatten) = [] := by
  induction l with
  | nil => rfl
  | cons a l ih => simp [ih]

theorem flatten_eq_replicate_of_forall {α : Type _} (c : α) {L : List (List α)}
    (h : ∀ l ∈ L, l = [c]) : L.flatten = List.replicate L.length c := by
  induction L with
  | nil => rfl
  | cons a L ih =>
    have ha := h a (List.mem_cons_self a L)
    have hL := ih (fun l hl => h l (List.mem_cons_of_mem a hl))
    simp [ha, hL, List.replicate_succ]

/-- C9: for item-CF and user-CF builds the per-entity statistics
precomputation is invoked exactly once per recommender — it is the very
first call of the build, before any cell is built — over the entire
unfiltered source relation (the item table and keys for item-CF, the user
table and keys for user-CF, never restricted by context attributes), and
every cell's populate call receives exactly that one precomputed statistics
value; for SVD builds no statistics precomputation call is made and the
populate calls carry no statistics. -/
theorem c9_precompute_once {S : Type} (B : Backend S) (r : CreateRStmt)
    (attList : List String) (db : String → List Row) (ts : Nat → Timeval) (lt : Nat → Nat) :
    (r.method = RecMethod.itemCosCF →
      ((createModels B r attList db ts lt).1).head?
        = some (Event.precompute PrecompKind.vectorLengths r.itemtable r.itemkey
            r.ratingtable r.ratingval) ∧
      ((createModels B r attList db ts lt).1).filter isPrecomputeEv
        = [Event.precompute PrecompKind.vectorLengths r.itemtable r.itemkey
            r.ratingtable r.ratingval] ∧
      ((createModels B r attList db ts lt).1).filterMap populateStats
        = List.replicate (enumeratedCells r attList db).length
            (some (B.vector_lengths r.itemtable r.itemkey r.ratingtable r.ratingval))) ∧
    (r.method = RecMethod.itemPearCF →
      ((createModels B r attList db ts lt).1).head?
        = some (Event.precompute PrecompKind.pearsonInfo r.itemtable r.itemkey
            r.ratingtable r.ratingval) ∧
      ((createModels B r attList db ts lt).1).filter isPrecomputeEv
        = [Event.precompute PrecompKind.pearsonInfo r.itemtable r.itemkey
            r.ratingtable r.ratingval] ∧
      ((createModels B r attList db ts lt).1).filterMap populateStats
        = List.replicate (enumeratedCells r attList db).length
            (some (B.pearson_info r.itemtable r.itemkey r.ratingtable r.ratingval))) ∧
    (r.method = RecMethod.userCosCF →
      ((createModels B r attList db ts lt).1).head?
        = some (Event.precompute PrecompKind.vectorLengths r.usertable r.userkey
            r.ratingtable r.ratingval) ∧
      ((createModels B r attList db ts lt).1).filter isPrecomputeEv
        = [Event.precompute PrecompKind.vectorLengths r.usertable r.userkey
            r.ratingtable r.ratingval] ∧
      ((createModels B r attList db ts lt).1).filterMap populateStats
        = List.replicate (enumeratedCells r attList db).length
            (some (B.vector_lengths r.usertable r.userkey r.ratingtable r.ratingval))) ∧
    (r.method = RecMethod.userPearCF →
      ((createModels B r attList db ts lt).1).head?
        = some (Event.precompute PrecompKind.pearsonInfo r.usertable r.userkey
            r.ratingtable r.ratingval) ∧
      ((createModels B r attList db ts lt).1).filter isPrecomputeEv
        = [Event.precompute PrecompKind.pearsonInfo r.usertable r.userkey
            r.ratingtable r.ratingval] ∧
      ((createModels B r attList db ts lt).1).filterMap populateStats
        = List.replicate (enumeratedCells r attList db).length
            (some (B.pearson_info r.usertable r.userkey r.ratingtable r.ratingval))) ∧
    (r.method = RecMethod.SVD →
      ((createModels B r attList db ts lt).1).filter isPrecomputeEv = [] ∧
      ((createModels B r attList db ts lt).1).filterMap populateStats
        = List.replicate (enumeratedCells r attList db).length (none : Option S)) := by
  refine ⟨?_, ?_, ?_, ?_, ?_⟩
  case refine_1 =>
    intro hm
    refine ⟨?_, ?_, ?_⟩
    · simp [createModels, hm, itemSimilarity, itemStats, itemCell]
    · simp [createModels, hm, itemSimilarity, itemStats, itemCell, isPrecomputeEv,
        flatten_map_nil, List.map_map, Function.comp]
    · simp only [createModels, hm, itemSimilarity, itemStats, reduceIte,
        List.filterMap_append, List.filterMap_flatten, List.map_map,
        List.filterMap_cons, List.filterMap_nil, populateStats, List.nil_append,
        List.append_nil]
      rw [flatten_eq_replicate_of_forall
        (some (B.vector_lengths r.itemtable r.itemkey r.ratingtable r.ratingval)) (by
        intro l hl
        obtain ⟨i, hi, rfl⟩ := List.mem_map.mp hl
        simp [itemCell, populateStats, Function.comp])]
      simp [populateStats]
  case refine_2 =>
    intro hm
    refine ⟨?_, ?_, ?_⟩
    · simp [createModels, hm, itemSimilarity, itemStats, itemCell]
    · simp [createModels, hm, itemSimilarity, itemStats, itemCell, isPrecomputeEv,
        flatten_map_nil, List.map_map, Function.comp]
    · simp only [createModels, hm, itemSimilarity, itemStats, reduceIte,
        List.filterMap_append, List.filterMap_flatten, List.map_map,
        List.filterMap_cons, List.filterMap_nil, populateStats, List.nil_append,
        List.append_nil]
      rw [flatten_eq_replicate_of_forall
        (some (B.pearson_info r.itemtable r.itemkey r.ratingtable r.ratingval)) (by
        intro l hl
        obtain ⟨i, hi, rfl⟩ := List.mem_map.mp hl
        simp [itemCell, populateStats, Function.comp])]
      simp [populateStats]
  case refine_3 =>
    intro hm
    refine ⟨?_, ?_, ?_⟩
    · simp [createModels, hm, userSimilarity, userStats, userCell]
    · simp [createModels, hm, userSimilarity, userStats, userCell, isPrecomputeEv,
        flatten_map_nil, List.map_map, Function.comp]
    · simp only [createModels, hm, userSimilarity, userStats, reduceIte,
        List.filterMap_append, List.filterMap_flatten, List.map_map,
        List.filterMap_cons, List.filterMap_nil, populateStats, List.nil_append,
        List.append_nil]
      rw [flatten_eq_replicate_of_forall
        (some (B.vector_lengths r.usertable r.userkey r.ratingtable r.ratingval)) (by
        intro l hl
        obtain ⟨i, hi, rfl⟩ := List.mem_map.mp hl
        simp [userCell, populateStats, Function.comp])]
      simp [populateStats]
  case refine_4 =>
    intro hm
    refine ⟨?_, ?_, ?_⟩
    · simp [createModels, hm, userSimilarity, userStats, userCell]
    · simp [createModels, hm, userSimilarity, userStats, userCell, isPrecomputeEv,
        flatten_map_nil, List.map_map, Function.comp]
    · simp only [createModels, hm, userSimilarity, userStats, reduceIte,
        List.filterMap_append, List.filterMap_flatten, List.map_map,
        List.filterMap_cons, List.filterMap_nil, populateStats, List.nil_append,
        List.append_nil]
      rw [flatten_eq_replicate_of_forall
        (some (B.pearson_info r.usertable r.userkey r.ratingtable r.ratingval)) (by
        intro l hl
        obtain ⟨i, hi, rfl⟩ := List.mem_map.mp hl
        simp [userCell, populateStats, Function.comp])]
      simp [populateStats]
  case refine_5 =>
    intro hm
    refine ⟨?_, ?_⟩
    · simp [createModels, hm, SVDSimilarity, SVDCell, isPrecomputeEv,
        flatten_map_nil, List.map_map, Function.comp]
    · simp only [createModels, hm, SVDSimilarity, List.filterMap_flatten,
        List.map_map, populateStats]
      rw [flatten_eq_replicate_of_forall (none : Option S) (by
        intro l hl
        obtain ⟨i, hi, rfl⟩ := List.mem_map.mp hl
        simp [SVDCell, populateStats, Function.comp])]
      simp [populateStats]

/-- An SVD build request used by witnesses. -/
def svdStmt : CreateRStmt :=
  ⟨"bar", "users", "items", "ratings", "uid", "iid", "rating", "svd", RecMethod.SVD⟩

/-- Witness for C9: a concrete item-cosine build precomputes exactly once
over the full item table; a concrete SVD build never precomputes. -/
theorem c9_witness :
    ((createModels natBackend fooStmt ["region"] sampleDB tsW ltW).1).filter isPrecomputeEv
      = [Event.precompute PrecompKind.vectorLengths "items" "iid" "ratings" "rating"] ∧
    ((createModels natBackend svdStmt ["region"] sampleDB tsW ltW).1).filter
        isPrecomputeEv = [] :=
  ⟨((c9_precompute_once natBackend fooStmt ["region"] sampleDB tsW ltW).1 rfl).2.1,
   ((c9_precompute_once natBackend svdStmt ["region"] sampleDB tsW ltW).2.2.2.2 rfl).1⟩

/-! ### C10 -/

/-- C10: every cell's artifact names are derived from that cell's single
clock read and the recommender's base name — model name(s) `base ++ "Model"`
(or `"UserModel"`/`"ItemModel"` for SVD) plus the very suffix used for the
view name `base ++ "View"`; every index-row insert targets the table
`base ++ "Index"`, which is also the relation the infrastructure step
creates; and the destroy path derives the artifact names it drops solely
from the index-table columns holding them (its drop operations are exactly
the enumerated cells' stored names, followed by the index drop and the
catalogue delete). -/
theorem c10_name_derivation {S : Type} (B : Backend S) (r : CreateRStmt)
    (attList : List String) (db : String → List Row) (ts : Nat → Timeval) (lt : Nat → Nat)
    (s : DBState) (numatts : Nat) (s2 : DBState) (dropname : String) :
    (∀ i, i < ((createModels B r attList db ts lt).2).length →
      (r.method ≠ RecMethod.SVD →
        (((createModels B r attList db ts lt).2).getD i emptyIndexRow).modelname1
          = recModelName r.relname (ts i) ∧
        (((createModels B r attList db ts lt).2).getD i emptyIndexRow).modelname2 = none ∧
        (((createModels B r attList db ts lt).2).getD i emptyIndexRow).viewname
          = recViewName r.relname (ts i)) ∧
      (r.method = RecMethod.SVD →
        (((createModels B r attList db ts lt).2).getD i emptyIndexRow).modelname1
          = recUserModelName r.relname (ts i) ∧
        (((createModels B r attList db ts lt).2).getD i emptyIndexRow).modelname2
          = some (recItemModelName r.relname (ts i)) ∧
        (((createModels B r attList db ts lt).2).getD i emptyIndexRow).viewname
          = recViewName r.relname (ts i))) ∧
    ((createModels B r attList db ts lt).1).filterMap insertIndexName
      = List.replicate (enumeratedCells r attList db).length (recIndexName r.relname) ∧
    (createRInfra s r numatts).tables = s.tables ++ [strLower (recIndexName r.relname)] ∧
    (s2.catalogueExists = true → recommenderExists s2 (strLower dropname) = true →
      (destroyRec s2 dropname).ops
        = [DropOp.enumerate (strLower dropname ++ "index")]
            ++ ((destroyCells s2 (strLower dropname)).flatMap cellDropNames).map
                DropOp.dropTable
            ++ [DropOp.dropTable (strLower dropname ++ "index"),
                DropOp.deleteCatalogueRow (strLower dropname ++ "Index")]) := by
  refine ⟨?_, ?_, ?_, ?_⟩
  · intro i hi
    have hK : i < (enumeratedCells r attList db).length := by
      rwa [createModels_rows_length] at hi
    constructor
    · intro hne
      cases hm : r.method
      case SVD => exact absurd hm hne
      all_goals
        simp [createModels, hm, itemSimilarity, userSimilarity, itemStats, userStats,
          itemCell, userCell, List.map_map, Function.comp, List.getElem?_range hK]
    · intro hm
      simp [createModels, hm, SVDSimilarity, SVDCell, List.map_map, Function.comp,
        List.getElem?_range hK]
  · cases hm : r.method <;>
    · simp only [createModels, hm, itemSimilarity, userSimilarity, SVDSimilarity,
        itemStats, userStats, reduceIte, List.filterMap_append, List.filterMap_flatten,
        List.map_map, List.filterMap_cons, List.filterMap_nil, insertIndexName,
        List.nil_append, List.append_nil]
      rw [flatten_eq_replicate_of_forall (recIndexName r.relname) (by
        intro l hl
        obtain ⟨i, hi, rfl⟩ := List.mem_map.mp hl
        simp [itemCell, userCell, SVDCell, insertIndexName, Function.comp])]
      simp [insertIndexName]
  · simp [createRInfra]
  · intro h1 h2
    rw [destroyRec_ok s2 dropname h1 h2]

/-- Witness for C10 at concrete builds and a concrete destroy. -/
theorem c10_witness :
    (((createModels natBackend fooStmt ["region"] sampleDB tsW ltW).2).getD 0
        emptyIndexRow).modelname1 = recModelName "foo" (tsW 0) ∧
    (createRInfra stateNoCatalogue fooStmt 0).tables
      = stateNoCatalogue.tables ++ [strLower (recIndexName "foo")] ∧
    (destroyRec stateWithFoo "foo").ops
      = [DropOp.enumerate (strLower "foo" ++ "index")]
          ++ ((destroyCells stateWithFoo (strLower "foo")).flatMap cellDropNames).map
              DropOp.dropTable
          ++ [DropOp.dropTable (strLower "foo" ++ "index"),
              DropOp.deleteCatalogueRow (strLower "foo" ++ "Index")] := by
  have h := c10_name_derivation natBackend fooStmt ["region"] sampleDB tsW ltW
    stateNoCatalogue 0 stateWithFoo "foo"
  refine ⟨?_, h.2.2.1, h.2.2.2 rfl rfl⟩
  have h0 := h.1 0 (by decide)
  exact (h0.1 (by decide)).1

end Recathon
